import Mathlib

/-!
Verification of the GetGSA document-analysis core (backend/services) against
its natural-language specification.  The Python services are shallowly
embedded as executable Lean functions over `List Char` (Python `str`), with
Python regular-expression behaviour compiled, pattern by pattern, into
deterministic matchers that mirror the backtracking semantics of `re`.
ASCII semantics are assumed throughout (all repository data is ASCII).
-/

namespace GetGSA

/-- Python strings are modelled as lists of characters. -/
abbrev Str := List Char

/-- Convert a Lean string literal to the model representation. -/
def str (s : String) : Str := s.data

/-- Python `\w` (ASCII): letters, digits, underscore. -/
def isWordChar (c : Char) : Bool := c.isAlphanum || c == '_'

/-- Python `\s` (ASCII): space, tab, newline, carriage return, vertical tab, form feed. -/
def isSpacePy (c : Char) : Bool :=
  c == ' ' || c == '\t' || c == '\n' || c == '\r' || c == '\x0b' || c == '\x0c'

/-- Character class `[A-Za-z0-9._%+-]` (local part of the e-mail pattern). -/
def isLocalChar (c : Char) : Bool :=
  c.isAlphanum || c == '.' || c == '_' || c == '%' || c == '+' || c == '-'

/-- Character class `[A-Za-z0-9.-]` (domain part of the e-mail pattern). -/
def isDomainChar (c : Char) : Bool := c.isAlphanum || c == '.' || c == '-'

/-- Character class `[A-Z|a-z]` of the e-mail pattern (the `|` is a literal member). -/
def isTldChar (c : Char) : Bool := c.isAlpha || c == '|'

/-- Lower-case a string (Python `str.lower`, ASCII). -/
def lowerStr (s : Str) : Str := s.map Char.toLower

/-- Python `str.strip()`: remove leading and trailing whitespace. -/
def stripStr (s : Str) : Str :=
  ((s.dropWhile isSpacePy).reverse.dropWhile isSpacePy).reverse

/-- Python substring membership `needle in hay`. -/
def inStr (needle : Str) : Str → Bool
  | [] => needle.isEmpty
  | c :: t => needle.isPrefixOf (c :: t) || inStr needle t

/-- Match one expected literal character, returning the rest of the input. -/
def charTok (c : Char) : Str → Option Str
  | x :: r => if x == c then some r else none
  | [] => none

/-- Match exactly `n` characters of a class (regex `cls{n}`), returning the rest. -/
def classCount (cls : Char → Bool) : Nat → Str → Option Str
  | 0, l => some l
  | _ + 1, [] => none
  | n + 1, x :: r => if cls x then classCount cls n r else none

/-- Word-boundary test `\b` between an optional previous character and the
current character (out-of-input counts as non-word). -/
def wordBoundary (prev : Option Char) (c : Char) : Bool :=
  (match prev with | none => false | some x => isWordChar x) != isWordChar c

/-- `\b` after `j` matched characters of `s`: compares the wordness of
characters `j-1` and `j` of `s` (missing characters are non-word). -/
def boundAfter (s : Str) (j : Nat) : Bool :=
  (match s[j-1]? with | some c => isWordChar c | none => false)
    != (match s[j]? with | some c => isWordChar c | none => false)

/-- Backtracking for `[A-Z|a-z]{2,}\b` at the head of `s`: the greedy engine
tries TLD lengths from `j` down to `2` and keeps the first length followed by
a word boundary. -/
def tldTry (s : Str) : Nat → Option Nat
  | 0 => none
  | 1 => none
  | j + 2 => if boundAfter s (j + 2) then some (j + 2) else tldTry s (j + 1)

/-- Match `[A-Z|a-z]{2,}\b` at the head of `s` (greedy with backtracking). -/
def tldStart (s : Str) : Option Nat := tldTry s (s.takeWhile isTldChar).length

/-- Backtracking for `[A-Za-z0-9.-]+\.[A-Z|a-z]{2,}\b` on `rest2` (the text
after the `@`): the engine tries domain lengths `i` from the maximal class run
down to `1`; each split requires a literal `.` at index `i` followed by a
matching TLD.  Returns the total number of characters consumed from `rest2`. -/
def domTry (rest2 : Str) : Nat → Option Nat
  | 0 => none
  | n + 1 =>
    match (if rest2[n+1]? == some '.' then tldStart (rest2.drop (n + 2)) else none) with
    | some j => some (n + 1 + 1 + j)
    | none => domTry rest2 n

/-- Length of a match of the e-mail pattern
`\b[A-Za-z0-9._%+-]+@[A-Za-z0-9.-]+\.[A-Z|a-z]{2,}\b`
anchored at the head of `l`, given the character preceding `l` (for `\b`).
The local-part run admits no backtracking because `@` is outside its class. -/
def emailMatchLen (prev : Option Char) (l : Str) : Option Nat :=
  match l with
  | [] => none
  | c :: _ =>
    if wordBoundary prev c then
      let loc := l.takeWhile isLocalChar
      if loc.isEmpty then none
      else
        match l.drop loc.length with
        | '@' :: rest2 =>
          let dom := rest2.takeWhile isDomainChar
          if dom.isEmpty then none
          else
            match domTry rest2 dom.length with
            | some k => some (loc.length + 1 + k)
            | none => none
        | _ => none
    else none

/-- A matcher takes the previous character (for `\b`) and the remaining text,
and returns the length of the match anchored at the head, if any. -/
abbrev Matcher := Option Char → Str → Option Nat

/-- Turn a rest-returning recogniser (no boundary context) into a `Matcher`. -/
def restMatcher (f : Str → Option Str) : Matcher :=
  fun _ l => (f l).map (fun r => l.length - r.length)

/-- `re.sub` driver: scan left to right, replace each leftmost non-overlapping
match by `repl`, and resume after the match (Python semantics).  The fuel is
the input length; every step consumes at least one character, so the fuel
never runs out on the inputs actually passed by `reSub`. -/
def subFuel (m : Matcher) (repl : Str) : Nat → Option Char → Str → Str
  | 0, _, l => l
  | _ + 1, _, [] => []
  | n + 1, prev, c :: cs =>
    match m prev (c :: cs) with
    | some (k + 1) =>
      repl ++ subFuel m repl n (((c :: cs).take (k + 1)).getLast?) ((c :: cs).drop (k + 1))
    | _ => c :: subFuel m repl n (some c) cs

/-- Python `pattern.sub(repl, l)` for a non-empty-match pattern. -/
def reSub (m : Matcher) (repl : Str) (l : Str) : Str :=
  subFuel m repl l.length none l

/-- `re.findall` driver (same scanning discipline as `subFuel`). -/
def findallFuel (m : Matcher) : Nat → Option Char → Str → List Str
  | 0, _, _ => []
  | _ + 1, _, [] => []
  | n + 1, prev, c :: cs =>
    match m prev (c :: cs) with
    | some (k + 1) =>
      ((c :: cs).take (k + 1)) ::
        findallFuel m n (((c :: cs).take (k + 1)).getLast?) ((c :: cs).drop (k + 1))
    | _ => findallFuel m n (some c) cs

/-- Python `pattern.findall(l)` for a non-empty-match pattern without groups. -/
def reFindall (m : Matcher) (l : Str) : List Str :=
  findallFuel m l.length none l

/-! ### PIIRedactor (backend/services/pii_redactor.py) -/

/-- The e-mail pattern as a `Matcher`. -/
def emailM : Matcher := emailMatchLen

/-- Redactor phone pattern 1: `\(\d{3}\)\s*\d{3}-\d{4}`. -/
def phone1Rest (l : Str) : Option Str := do
  let r ← charTok '(' l
  let r ← classCount Char.isDigit 3 r
  let r ← charTok ')' r
  let r := r.dropWhile isSpacePy
  let r ← classCount Char.isDigit 3 r
  let r ← charTok '-' r
  classCount Char.isDigit 4 r

/-- Redactor phone pattern 2: `\d{3}-\d{3}-\d{4}`. -/
def phone2Rest (l : Str) : Option Str := do
  let r ← classCount Char.isDigit 3 l
  let r ← charTok '-' r
  let r ← classCount Char.isDigit 3 r
  let r ← charTok '-' r
  classCount Char.isDigit 4 r

/-- Redactor phone pattern 3: `\d{3}\.\d{3}\.\d{4}`. -/
def phone3Rest (l : Str) : Option Str := do
  let r ← classCount Char.isDigit 3 l
  let r ← charTok '.' r
  let r ← classCount Char.isDigit 3 r
  let r ← charTok '.' r
  classCount Char.isDigit 4 r

/-- Redactor phone pattern 4: `\d{10}`. -/
def phone4Rest (l : Str) : Option Str := classCount Char.isDigit 10 l

/-- Redactor phone pattern 5: `\+1\s*\d{3}\s*\d{3}\s*\d{4}`. -/
def phone5Rest (l : Str) : Option Str := do
  let r ← charTok '+' l
  let r ← charTok '1' r
  let r := r.dropWhile isSpacePy
  let r ← classCount Char.isDigit 3 r
  let r := r.dropWhile isSpacePy
  let r ← classCount Char.isDigit 3 r
  let r := r.dropWhile isSpacePy
  classCount Char.isDigit 4 r

/-- `PIIRedactor.redact`: substitute the e-mail pattern, then the five phone
patterns in order, each with its fixed replacement token. -/
def redact (t : Str) : Str :=
  let t := reSub emailM (str "[EMAIL_REDACTED]") t
  let t := reSub (restMatcher phone1Rest) (str "[PHONE_REDACTED]") t
  let t := reSub (restMatcher phone2Rest) (str "[PHONE_REDACTED]") t
  let t := reSub (restMatcher phone3Rest) (str "[PHONE_REDACTED]") t
  let t := reSub (restMatcher phone4Rest) (str "[PHONE_REDACTED]") t
  reSub (restMatcher phone5Rest) (str "[PHONE_REDACTED]") t

/-! ### Data model (backend/models/document_models.py, and the dict shapes
produced by DocumentProcessor.process_documents) -/

/-- `primary_contact` dictionary `{email, phone}`. -/
structure Contact where
  email : Str
  phone : Str
  deriving DecidableEq

/-- One past-performance record; every field is optional (present only when
its label was found in the record's block). -/
structure PastPerf where
  customer : Option Str
  contract : Option Str
  value : Option Str
  period : Option Str
  contact : Option Str
  deriving DecidableEq

/-- One pricing row; the extractor always populates all three fields. -/
structure PricingItem where
  labor_category : Str
  rate : Str
  unit : Str
  deriving DecidableEq

/-- The aggregated fact set built by `DocumentProcessor.process_documents`. -/
structure ParsedData where
  uei : Option Str
  duns : Option Str
  naics_codes : List Str
  sam_status : Option Str
  primary_contact : Option Contact
  past_performance : List PastPerf
  pricing_data : List PricingItem
  document_types : List Str
  deriving DecidableEq

/-- A rule citation returned by the retriever; the float score is modelled
as a rational. -/
structure Citation where
  rule_id : Str
  chunk : Str
  relevance_score : ℚ
  deriving DecidableEq

/-- One checklist finding. -/
structure ChecklistItem where
  required : Bool
  ok : Bool
  problem : Option Str
  evidence : Str
  rule_ids : List Str
  deriving DecidableEq

/-- The evaluated checklist. -/
structure Checklist where
  items : List ChecklistItem
  overall_status : Str
  deriving DecidableEq

/-! ### Checklist evaluator (backend/services/ai_service.py,
`AIService._mock_generate_checklist`) -/

/-- Python truthiness of an optional string (`None` and `""` are falsy). -/
def truthy : Option Str → Bool
  | none => false
  | some s => !s.isEmpty

/-- Characters of the class `[\d,]`. -/
def isValChar (c : Char) : Bool := c.isDigit || c == ','

/-- Group 1 of `re.search(r'\$?([\d,]+)', v)`: the leftmost maximal run of
digits/commas.  (An optional preceding `$` enlarges the match but never the
group, so the group is exactly the first such run.) -/
def firstDigitRun : Str → Option Str
  | [] => none
  | c :: cs =>
    if isValChar c then some ((c :: cs).takeWhile isValChar) else firstDigitRun cs

/-- Python `int(s)` on a string of decimal digits; `int('')` raises
`ValueError`, modelled as an error. -/
def intOfDigits (s : Str) : Except Unit Nat :=
  if s.isEmpty then .error ()
  else .ok (s.foldl (fun a c => a * 10 + (c.toNat - '0'.toNat)) 0)

/-- The evaluator's numeric coercion of a `value` string: search for the
first digits/commas run, strip commas (`.replace(',', '')`), convert with
`int`; no run at all yields 0. -/
def parsedValue (v : Str) : Except Unit Nat :=
  match firstDigitRun v with
  | none => .ok 0
  | some run => intOfDigits (run.filter (fun c => c != ','))

/-- `pp.get('value', 0)` followed by the string coercion: a missing value is
the integer 0. -/
def ppValueAmount (pp : PastPerf) : Except Unit Nat :=
  match pp.value with
  | none => .ok 0
  | some v => parsedValue v

/-- The past-performance loop: break at the first entry whose amount is
`≥ 25000`; a `ValueError` from the coercion propagates. -/
def minValueMet : List PastPerf → Except Unit Bool
  | [] => .ok false
  | pp :: rest =>
    match ppValueAmount pp with
    | .error e => .error e
    | .ok a => if 25000 ≤ a then .ok true else minValueMet rest

/-- UEI finding (problem strings appended, item produced). -/
def ueiFinding (d : ParsedData) : List Str × ChecklistItem :=
  if !truthy d.uei then
    ([str "missing_uei"],
      ⟨true, false, some (str "missing_uei"), str "UEI not found in documents", [str "R1"]⟩)
  else
    ([], ⟨true, true, none, str "UEI found: " ++ d.uei.getD [], [str "R1"]⟩)

/-- DUNS finding. -/
def dunsFinding (d : ParsedData) : List Str × ChecklistItem :=
  if !truthy d.duns then
    ([str "missing_duns"],
      ⟨true, false, some (str "missing_duns"), str "DUNS not found in documents", [str "R1"]⟩)
  else
    ([], ⟨true, true, none, str "DUNS found: " ++ d.duns.getD [], [str "R1"]⟩)

/-- SAM.gov finding: `if not parsed_data.get('sam_status') or
'active' not in parsed_data['sam_status'].lower()`. -/
def samFinding (d : ParsedData) : List Str × ChecklistItem :=
  if !(truthy d.sam_status &&
        inStr (str "active") (lowerStr (d.sam_status.getD []))) then
    ([str "sam_not_active"],
      ⟨true, false, some (str "sam_not_active"),
        str "SAM.gov registration not active", [str "R1"]⟩)
  else
    ([], ⟨true, true, none, str "SAM.gov status: " ++ d.sam_status.getD [], [str "R1"]⟩)

/-- Past-performance finding (may raise through the numeric coercion). -/
def ppFinding (d : ParsedData) : Except Unit (List Str × ChecklistItem) :=
  if d.past_performance.isEmpty then
    .ok ([str "missing_past_performance"],
      ⟨true, false, some (str "missing_past_performance"),
        str "No past performance records found", [str "R3"]⟩)
  else
    match minValueMet d.past_performance with
    | .error e => .error e
    | .ok met =>
      if !met then
        .ok ([str "past_performance_min_value_not_met"],
          ⟨true, false, some (str "past_performance_min_value_not_met"),
            str "No past performance ≥ $25,000 found", [str "R3"]⟩)
      else
        .ok ([], ⟨true, true, none, str "Past performance ≥ $25,000 found", [str "R3"]⟩)

/-- Pricing completeness loop: break at the first entry with a falsy `rate`
or `unit`. -/
def pricingComplete : List PricingItem → Bool
  | [] => true
  | p :: rest =>
    if p.rate.isEmpty || p.unit.isEmpty then false else pricingComplete rest

/-- Pricing finding. -/
def pricingFinding (d : ParsedData) : List Str × ChecklistItem :=
  if d.pricing_data.isEmpty then
    ([str "pricing_incomplete"],
      ⟨true, false, some (str "pricing_incomplete"), str "No pricing data found", [str "R4"]⟩)
  else if !pricingComplete d.pricing_data then
    ([str "pricing_incomplete"],
      ⟨true, false, some (str "pricing_incomplete"),
        str "Pricing data missing rate or unit information", [str "R4"]⟩)
  else
    ([], ⟨true, true, none, str "Pricing data complete", [str "R4"]⟩)

/-- `AIService._mock_generate_checklist`: five findings in order (UEI, DUNS,
SAM, past performance, pricing); `overall_status` is `"pass"` iff the
`problems` list stayed empty.  The `relevantRules` argument is received but
never read, exactly as in the Python source. -/
def mockGenerateChecklist (d : ParsedData) (relevantRules : List Citation) :
    Except Unit Checklist :=
  match ppFinding d with
  | .error e => .error e
  | .ok pi4 =>
    let problems :=
      (ueiFinding d).1 ++ (dunsFinding d).1 ++ (samFinding d).1 ++ pi4.1 ++
        (pricingFinding d).1
    .ok ⟨[(ueiFinding d).2, (dunsFinding d).2, (samFinding d).2, pi4.2,
           (pricingFinding d).2],
         if problems.isEmpty then str "pass" else str "fail"⟩

/-! ### Rule index and retriever (backend/services/rag_service.py)

`RAGService._create_simple_embeddings` fits a fresh scikit-learn
`TfidfVectorizer(max_features=100, stop_words='english', ngram_range=(1,2))`
on whichever text list it is given.  The vectorizer's vocabulary building is
modelled exactly (lower-casing, the `\b\w\w+\b` token pattern, the frozen
English stop-word list, word bigrams, the `max_features` cap, and the
`ValueError` raised on an empty vocabulary).  Tf-idf weights are real-valued
and are not modelled: `c1_retrieval_always_errors` proves that every call
errors before any weight is consumed, because the query is fitted in its own
vector space whose dimension never equals the index's. -/

/-- scikit-learn's frozen `ENGLISH_STOP_WORDS` list. -/
def stopWords : List Str :=
  [str "a", str "about", str "above", str "across", str "after", str "afterwards",
   str "again", str "against", str "all", str "almost", str "alone", str "along",
   str "already", str "also", str "although", str "always", str "am", str "among",
   str "amongst", str "amoungst", str "amount", str "an", str "and", str "another",
   str "any", str "anyhow", str "anyone", str "anything", str "anyway", str "anywhere",
   str "are", str "around", str "as", str "at", str "back", str "be",
   str "became", str "because", str "become", str "becomes", str "becoming", str "been",
   str "before", str "beforehand", str "behind", str "being", str "below", str "beside",
   str "besides", str "between", str "beyond", str "bill", str "both", str "bottom",
   str "but", str "by", str "call", str "can", str "cannot", str "cant",
   str "co", str "con", str "could", str "couldnt", str "cry", str "de",
   str "describe", str "detail", str "do", str "done", str "down", str "due",
   str "during", str "each", str "eg", str "eight", str "either", str "eleven",
   str "else", str "elsewhere", str "empty", str "enough", str "etc", str "even",
   str "ever", str "every", str "everyone", str "everything", str "everywhere", str "except",
   str "few", str "fifteen", str "fifty", str "fill", str "find", str "fire",
   str "first", str "five", str "for", str "former", str "formerly", str "forty",
   str "found", str "four", str "from", str "front", str "full", str "further",
   str "get", str "give", str "go", str "had", str "has", str "hasnt",
   str "have", str "he", str "hence", str "her", str "here", str "hereafter",
   str "hereby", str "herein", str "hereupon", str "hers", str "herself", str "him",
   str "himself", str "his", str "how", str "however", str "hundred", str "i",
   str "ie", str "if", str "in", str "inc", str "indeed", str "interest",
   str "into", str "is", str "it", str "its", str "itself", str "keep",
   str "last", str "latter", str "latterly", str "least", str "less", str "ltd",
   str "made", str "many", str "may", str "me", str "meanwhile", str "might",
   str "mill", str "mine", str "more", str "moreover", str "most", str "mostly",
   str "move", str "much", str "must", str "my", str "myself", str "name",
   str "namely", str "neither", str "never", str "nevertheless", str "next", str "nine",
   str "no", str "nobody", str "none", str "noone", str "nor", str "not",
   str "nothing", str "now", str "nowhere", str "of", str "off", str "often",
   str "on", str "once", str "one", str "only", str "onto", str "or",
   str "other", str "others", str "otherwise", str "our", str "ours", str "ourselves",
   str "out", str "over", str "own", str "part", str "per", str "perhaps",
   str "please", str "put", str "rather", str "re", str "same", str "see",
   str "seem", str "seemed", str "seeming", str "seems", str "serious", str "several",
   str "she", str "should", str "show", str "side", str "since", str "sincere",
   str "six", str "sixty", str "so", str "some", str "somehow", str "someone",
   str "something", str "sometime", str "sometimes", str "somewhere", str "still", str "such",
   str "system", str "take", str "ten", str "than", str "that", str "the",
   str "their", str "them", str "themselves", str "then", str "thence", str "there",
   str "thereafter", str "thereby", str "therefore", str "therein", str "thereupon", str "these",
   str "they", str "thick", str "thin", str "third", str "this", str "those",
   str "though", str "three", str "through", str "throughout", str "thru", str "thus",
   str "to", str "together", str "too", str "top", str "toward", str "towards",
   str "twelve", str "twenty", str "two", str "un", str "under", str "until",
   str "up", str "upon", str "us", str "very", str "via", str "was",
   str "we", str "well", str "were", str "what", str "whatever", str "when",
   str "whence", str "whenever", str "where", str "whereafter", str "whereas", str "whereby",
   str "wherein", str "whereupon", str "wherever", str "whether", str "which", str "while",
   str "whither", str "who", str "whoever", str "whole", str "whom", str "whose",
   str "why", str "will", str "with", str "within", str "without", str "would",
   str "yet", str "you", str "your", str "yours", str "yourself", str "yourselves"]

/-- Maximal `\w` runs of the input (the accumulator holds the current run,
reversed). -/
def wordRunsAux (cur : Str) : Str → List Str
  | [] => if cur.isEmpty then [] else [cur.reverse]
  | c :: cs =>
    if isWordChar c then wordRunsAux (c :: cur) cs
    else if cur.isEmpty then wordRunsAux [] cs
    else cur.reverse :: wordRunsAux [] cs

/-- The vectorizer's token stream: lower-case, split on the token pattern
`\b\w\w+\b` (maximal word runs of length at least 2), drop stop words. -/
def tokensOf (s : Str) : List Str :=
  ((wordRunsAux [] (lowerStr s)).filter (fun t => decide (2 ≤ t.length))).filter
    (fun t => !(stopWords.contains t))

/-- Word bigrams, joined by a single space (`ngram_range=(1,2)`). -/
def bigramsOf : List Str → List Str
  | t1 :: t2 :: rest => (t1 ++ ' ' :: t2) :: bigramsOf (t2 :: rest)
  | _ => []

/-- All features a document contributes: its unigrams and bigrams. -/
def featuresOf (s : Str) : List Str :=
  let ts := tokensOf s
  ts ++ bigramsOf ts

/-- The fitted vocabulary of a corpus (distinct features). -/
def vocabOf (texts : List Str) : List Str :=
  ((texts.map featuresOf).flatten).dedup

/-- The two `ValueError`s that the retrieval path can raise. -/
inductive RagError
  | emptyVocabulary
  | dimensionMismatch
  deriving DecidableEq

/-- Shape of a fitted tf-idf matrix.  Only the shape is modelled: the
real-valued weights are never consumed on any execution path of
`getRelevantRules` (see `c1_retrieval_always_errors`). -/
structure EmbedMatrix where
  nrows : Nat
  dim : Nat
  deriving DecidableEq

/-- `RAGService._create_simple_embeddings`: fit a fresh vectorizer on the
given texts.  `fit_transform` raises `ValueError` on an empty vocabulary;
otherwise the returned matrix has one row per text and one column per
fitted feature, capped by `max_features=100`. -/
def createSimpleEmbeddings (texts : List Str) : Except RagError EmbedMatrix :=
  let vocab := vocabOf texts
  if vocab.isEmpty then .error .emptyVocabulary
  else .ok ⟨texts.length, min vocab.length 100⟩

/-- `sklearn.metrics.pairwise.cosine_similarity` raises `ValueError` when the
two matrices have incompatible column dimensions. -/
def cosineSimilarityOk (a b : EmbedMatrix) : Except RagError Unit :=
  if a.dim = b.dim then .ok () else .error .dimensionMismatch

/-- The five searchable rule texts, `f"{title}: {content}"`, in the
insertion order R1..R5 of `RAGService.__init__`. -/
def ruleTexts : List Str :=
  [str "Identity & Registry: Required: UEI (12 chars), DUNS (9 digits), and active SAM.gov registration. Primary contact must have valid email and phone.",
   str "NAICS & SIN Mapping: 541511 → 54151S, 541512 → 54151S, 541611 → 541611, 518210 → 518210C",
   str "Past Performance: At least 1 past performance ≥ $25,000 within last 36 months. Must include customer name, value, period, and contact email.",
   str "Pricing & Catalog: Provide labor categories and rates in a structured sheet. If missing rate basis or units, flag 'pricing_incomplete'.",
   str "Submission Hygiene: All personally identifiable info must be stored in redacted form; only derived fields and hashes are stored by default."]

/-- The index built by `RAGService._build_index` (its shape). -/
def indexMatrix : EmbedMatrix := ⟨ruleTexts.length, min (vocabOf ruleTexts).length 100⟩

/-- Python `" ".join(parts)`. -/
def joinSpace : List Str → Str
  | [] => []
  | [x] => x
  | x :: y :: rest => x ++ ' ' :: joinSpace (y :: rest)

/-- The query text of `RAGService.get_relevant_rules`: fixed topical phrases
gated on which fact categories are (truthily) present, joined by spaces. -/
def queryText (d : ParsedData) : Str :=
  joinSpace
    ((if truthy d.uei then [str "UEI DUNS SAM.gov registration"] else []) ++
      (if d.naics_codes.isEmpty then [] else [str "NAICS SIN mapping"]) ++
      (if d.past_performance.isEmpty then [] else [str "past performance requirements"]) ++
      (if d.pricing_data.isEmpty then [] else [str "pricing labor categories rates"]))

/-- `RAGService.get_relevant_rules`: embed the query by fitting a fresh
vectorizer on the query text alone, then score against the index with cosine
similarity.  Both steps can raise; the success branch (filter by score > 0.3
and sort descending) would need the unmodelled weights, but it is proven
unreachable for this corpus (`c1_retrieval_always_errors`), so a placeholder
empty list stands there. -/
def getRelevantRules (d : ParsedData) : Except RagError (List Citation) :=
  match createSimpleEmbeddings [queryText d] with
  | .error e => .error e
  | .ok qe =>
    match cosineSimilarityOk qe indexMatrix with
    | .error e => .error e
    | .ok _ => .ok []

/-! ### Field extractor (backend/services/document_processor.py) -/

/-- An uploaded document (`name`, optional `type_hint`, raw `text`); the
persistence-only fields of the pydantic model (`redacted_text`,
`created_at`) play no role in `process_documents` and are omitted. -/
structure Document where
  name : Str
  type_hint : Option Str
  text : Str
  deriving DecidableEq

/-- `DocumentProcessor._classify_document`: a truthy `type_hint` wins
verbatim; otherwise keyword sets are scanned over the lower-cased text in
priority order profile → past_performance → pricing → unknown. -/
def classifyDocument (text : Str) (typeHint : Option Str) : Str :=
  if truthy typeHint then typeHint.getD []
  else
    let tl := lowerStr text
    if [str "uei:", str "duns:", str "sam.gov", str "primary contact",
        str "poc:"].any (fun k => inStr k tl) then str "profile"
    else if [str "past performance", str "customer:", str "contract:", str "value:",
        str "period:"].any (fun k => inStr k tl) then str "past_performance"
    else if [str "labor category", str "rate", str "pricing", str "hour",
        str "day"].any (fun k => inStr k tl) then str "pricing"
    else str "unknown"

/-- Case-insensitive literal match of a label (regexes compiled with
`re.IGNORECASE`), returning the rest of the input. -/
def matchLabelCI : Str → Str → Option Str
  | [], l => some l
  | _ :: _, [] => none
  | a :: as, c :: cs => if a.toLower == c.toLower then matchLabelCI as cs else none

/-- Generic `re.search` position scan: try the anchored recogniser at every
suffix, left to right. -/
def reSearch {α : Type} (m : Str → Option α) : Str → Option α
  | [] => m []
  | c :: cs =>
    match m (c :: cs) with
    | some r => some r
    | none => reSearch m cs

/-- Anchored matcher for `LABEL\s*(cls{n})` (e.g. `UEI:\s*([A-Z0-9]{12})`).
`\s*` is effectively greedy-deterministic because `cls` never contains
whitespace here; `{n}` consumes exactly `n` class characters (a following
class character is simply not part of the group). -/
def labelCountAt (label : Str) (cls : Char → Bool) (n : Nat) (l : Str) : Option Str :=
  match matchLabelCI label l with
  | none => none
  | some r =>
    let r := r.dropWhile isSpacePy
    match classCount cls n r with
    | some _ => some (r.take n)
    | none => none

/-- Anchored matcher for `LABEL\s*(cls+)` where `cls` contains `\s`
(e.g. `NAICS:\s*([0-9,\s]+)` and `SAM\.gov:\s*([a-zA-Z\s]+)`).  The greedy
engine first gives all whitespace to `\s*`; if no class run starts after it,
it backtracks one character, and the group is then that single whitespace
character (the run stops immediately at the non-class character that ended
the whitespace). -/
def labelRunAt (label : Str) (cls : Char → Bool) (l : Str) : Option Str :=
  match matchLabelCI label l with
  | none => none
  | some r =>
    let ws := r.takeWhile isSpacePy
    let t := r.drop ws.length
    let run := t.takeWhile cls
    if !run.isEmpty then some run
    else
      match ws.getLast? with
      | some w => some [w]
      | none => none

/-- Anchored matcher for `LABEL:\s*([^\n]+)` (the past-performance field
patterns).  `[^\n]+` matches from the first character after the whitespace
when one exists; at end of input the engine backtracks `\s*` to the last
non-newline whitespace character, whose run is that single character. -/
def labelLineAt (label : Str) (l : Str) : Option Str :=
  match matchLabelCI label l with
  | none => none
  | some r =>
    let ws := r.takeWhile isSpacePy
    let t := r.drop ws.length
    let run := t.takeWhile (fun c => c != '\n')
    if !run.isEmpty then some run
    else
      match ws.reverse.find? (fun c => c != '\n') with
      | some w => some [w]
      | none => none

/-- Optionally consume one literal character (regex `c?`). -/
def optTok (c : Char) (l : Str) : Str :=
  match charTok c l with
  | some r => r
  | none => l

/-- Optionally consume one character of a class (regex `[..]?`). -/
def optClass (cls : Char → Bool) (l : Str) : Str :=
  match l with
  | x :: r => if cls x then r else l
  | [] => l

/-- Separator class `[-.\s]` of the processor's phone pattern. -/
def isSepChar (c : Char) : Bool := c == '-' || c == '.' || isSpacePy c

/-- Processor phone pattern `\(?\d{3}\)?[-.\s]?\d{3}[-.\s]?\d{4}`.  Each
optional element's class is disjoint from the `\d` that follows it, so
greedily taking a present optional never changes matchability and the
backtracking engine is deterministic here. -/
def procPhoneRest (l : Str) : Option Str := do
  let r := optTok '(' l
  let r ← classCount Char.isDigit 3 r
  let r := optTok ')' r
  let r := optClass isSepChar r
  let r ← classCount Char.isDigit 3 r
  let r := optClass isSepChar r
  classCount Char.isDigit 4 r

/-- The processor phone pattern as a `Matcher`. -/
def procPhoneM : Matcher := restMatcher procPhoneRest

/-- Python `str.split(sep)` for one-character separators. -/
def splitOnChar (sep : Char) : Str → List Str
  | [] => [[]]
  | c :: cs =>
    if c == sep then [] :: splitOnChar sep cs
    else
      match splitOnChar sep cs with
      | h :: t => (c :: h) :: t
      | [] => [[c]]

/-- Python `str.split(sep)` for a non-empty separator string (used with
`"\n\n"`): leftmost non-overlapping occurrences, scanned left to right.
Fuelled by the input length; every recursive step consumes at least one
character. -/
def splitOnSubFuel (sep : Str) : Nat → Str → Str → List Str
  | _, acc, [] => [acc.reverse]
  | 0, acc, l => [acc.reverse ++ l]
  | n + 1, acc, c :: cs =>
    if sep.isPrefixOf (c :: cs) then
      acc.reverse :: splitOnSubFuel sep n [] ((c :: cs).drop sep.length)
    else
      splitOnSubFuel sep n (c :: acc) cs

/-- Python `text.split(sep)` (nonempty `sep`). -/
def splitOnSub (sep l : Str) : List Str := splitOnSubFuel sep l.length [] l

/-- `UEI:\s*([A-Z0-9]{12})` search (with `re.IGNORECASE` the class also
matches lower-case letters), updating `uei` on a hit. -/
def updateUei (t : Str) (d : ParsedData) : ParsedData :=
  match reSearch (labelCountAt (str "UEI:") (fun c => c.isAlphanum) 12) t with
  | some g => { d with uei := some g }
  | none => d

/-- `DUNS:\s*(\d{9})` search. -/
def updateDuns (t : Str) (d : ParsedData) : ParsedData :=
  match reSearch (labelCountAt (str "DUNS:") Char.isDigit 9) t with
  | some g => { d with duns := some g }
  | none => d

/-- `NAICS:\s*([0-9,\s]+)` search; the group is split on commas, each part
stripped, and the codes appended in encountered order (no deduplication). -/
def updateNaics (t : Str) (d : ParsedData) : ParsedData :=
  match reSearch (labelRunAt (str "NAICS:")
      (fun c => c.isDigit || c == ',' || isSpacePy c)) t with
  | some g => { d with naics_codes := d.naics_codes ++ (splitOnChar ',' g).map stripStr }
  | none => d

/-- `SAM\.gov:\s*([a-zA-Z\s]+)` search; the group is stripped. -/
def updateSam (t : Str) (d : ParsedData) : ParsedData :=
  match reSearch (labelRunAt (str "SAM.gov:")
      (fun c => c.isAlpha || isSpacePy c)) t with
  | some g => { d with sam_status := some (stripStr g) }
  | none => d

/-- Contact extraction: `findall` of the e-mail and phone patterns; when both
lists are non-empty the contact is set (overwriting any previous value) from
the first element of each. -/
def updateContact (t : Str) (d : ParsedData) : ParsedData :=
  match reFindall emailM t, reFindall procPhoneM t with
  | e :: _, p :: _ => { d with primary_contact := some ⟨e, p⟩ }
  | _, _ => d

/-- `DocumentProcessor._extract_profile_fields`: the five field extractions
in source order. -/
def extractProfileFields (t : Str) (d : ParsedData) : ParsedData :=
  updateContact t (updateSam t (updateNaics t (updateDuns t (updateUei t d))))

/-- One past-performance record extracted from a block: the five optional
labelled fields, each stripped. -/
def extractPPRecord (sec : Str) : PastPerf :=
  ⟨(reSearch (labelLineAt (str "Customer:")) sec).map stripStr,
    (reSearch (labelLineAt (str "Contract:")) sec).map stripStr,
    (reSearch (labelLineAt (str "Value:")) sec).map stripStr,
    (reSearch (labelLineAt (str "Period:")) sec).map stripStr,
    (reSearch (labelLineAt (str "Contact:")) sec).map stripStr⟩

/-- One block of `DocumentProcessor._extract_past_performance_fields`: a
block mentioning `customer:` or `contract:` (case-insensitively) yields a
record, appended when at least one field was found (`if pp_data:`). -/
def ppBlockStep (d : ParsedData) (sec : Str) : ParsedData :=
  if inStr (str "customer:") (lowerStr sec) || inStr (str "contract:") (lowerStr sec) then
    if extractPPRecord sec = ⟨none, none, none, none, none⟩ then d
    else { d with past_performance := d.past_performance ++ [extractPPRecord sec] }
  else d

/-- `DocumentProcessor._extract_past_performance_fields`: split on blank
lines and process each block. -/
def extractPastPerformanceFields (t : Str) (d : ParsedData) : ParsedData :=
  (splitOnSub (str "\n\n") t).foldl ppBlockStep d

/-- One line of `DocumentProcessor._extract_pricing_fields`: a row needs a
comma and one of the keywords; it is split on commas, parts stripped, and
rows with fewer than three fields are skipped. -/
def pricingLineStep (d : ParsedData) (line : Str) : ParsedData :=
  if line.contains ',' &&
      ([str "labor", str "rate", str "hour", str "day"].any
        (fun k => inStr k (lowerStr line))) then
    match (splitOnChar ',' line).map stripStr with
    | a :: b :: c :: _ => { d with pricing_data := d.pricing_data ++ [⟨a, b, c⟩] }
    | _ => d
  else d

/-- `DocumentProcessor._extract_pricing_fields`: line by line. -/
def extractPricingFields (t : Str) (d : ParsedData) : ParsedData :=
  (splitOnChar '\n' t).foldl pricingLineStep d

/-- The fact-set accumulator's initial value in `process_documents`. -/
def emptyParsed : ParsedData := ⟨none, none, [], none, none, [], [], []⟩

/-- One iteration of the `process_documents` loop: classify, record the
document type, extract by class. -/
def processOneDocument (d : ParsedData) (doc : Document) : ParsedData :=
  let ty := classifyDocument doc.text doc.type_hint
  let d' := { d with document_types := d.document_types ++ [ty] }
  if ty = str "profile" then extractProfileFields doc.text d'
  else if ty = str "past_performance" then extractPastPerformanceFields doc.text d'
  else if ty = str "pricing" then extractPricingFields doc.text d'
  else d'

/-- `DocumentProcessor.process_documents`. -/
def processDocuments (docs : List Document) : ParsedData :=
  docs.foldl processOneDocument emptyParsed

/-- The contact a single document contributes when processed: present iff
the document classifies as `profile` and contains both an e-mail-shaped and
a phone-shaped token; it is then the first of each. -/
def docContact (doc : Document) : Option Contact :=
  if classifyDocument doc.text doc.type_hint = str "profile" then
    match reFindall emailM doc.text, reFindall procPhoneM doc.text with
    | e :: _, p :: _ => some ⟨e, p⟩
    | _, _ => none
  else none

/-- One step of the last-write-wins contact fold. -/
def contactStep (acc : Option Contact) (doc : Document) : Option Contact :=
  match docContact doc with
  | some c => some c
  | none => acc

/-- Last-write-wins fold of the per-document contacts, in document order. -/
def lastContact (docs : List Document) : Option Contact :=
  docs.foldl contactStep none

/-- Rule R2's direct `naics_code → SIN` mapping table. -/
def rulesNaicsMappings : List (Str × Str) :=
  [(str "541511", str "54151S"), (str "541512", str "54151S"),
   (str "541611", str "541611"), (str "518210", str "518210C")]

/-- `RAGService.get_naics_mapping`: `mappings.get(naics_code, naics_code)` —
dictionary lookup with the input itself as the default. -/
def getNaicsMapping (code : Str) : Str :=
  match rulesNaicsMappings.lookup code with
  | some sin => sin
  | none => code

end GetGSA

namespace GetGSA

/-- Inversion of a successful checklist evaluation: the checklist is built
from the five finding functions, in order. -/
theorem checklist_ok_inversion (d : ParsedData) (cits : List Citation) (c : Checklist)
    (h : mockGenerateChecklist d cits = .ok c) :
    ∃ pi4, ppFinding d = .ok pi4 ∧
      c = ⟨[(ueiFinding d).2, (dunsFinding d).2, (samFinding d).2, pi4.2,
             (pricingFinding d).2],
           if ((ueiFinding d).1 ++ (dunsFinding d).1 ++ (samFinding d).1 ++ pi4.1 ++
                (pricingFinding d).1).isEmpty then str "pass" else str "fail"⟩ := by
  unfold mockGenerateChecklist at h
  cases hpp : ppFinding d with
  | error e => rw [hpp] at h; exact absurd h (by simp)
  | ok pi4 =>
    rw [hpp] at h
    simp only [Except.ok.injEq] at h
    exact ⟨pi4, rfl, h.symm⟩

/-- The SAM finding's `ok` field equals the (truthy ∧ substring) condition. -/
theorem samFinding_ok (d : ParsedData) :
    (samFinding d).2.ok =
      (truthy d.sam_status && inStr (str "active") (lowerStr (d.sam_status.getD []))) := by
  unfold samFinding
  cases h : (truthy d.sam_status && inStr (str "active") (lowerStr (d.sam_status.getD []))) <;>
    simp [h]

/-- The evaluator's SAM condition, rephrased over the option. -/
theorem samCond_iff (o : Option Str) :
    (truthy o && inStr (str "active") (lowerStr (o.getD []))) = true ↔
      ∃ s, o = some s ∧ inStr (str "active") (lowerStr s) = true := by
  cases o with
  | none => simp [truthy]
  | some s =>
    cases s with
    | nil =>
      simp [truthy, show inStr (str "active") (lowerStr ([] : Str)) = false from rfl]
    | cons c t => simp [truthy]

/-- Spec-side helper: the parsed amounts of all past-performance entries
(errors propagate). -/
def ppAmounts : List PastPerf → Except Unit (List Nat)
  | [] => .ok []
  | pp :: rest =>
    match ppValueAmount pp with
    | .error e => .error e
    | .ok a =>
      match ppAmounts rest with
      | .error e => .error e
      | .ok as => .ok (a :: as)

/-- When every entry parses, the break-at-first-hit loop computes exactly
"some parsed amount is ≥ 25000". -/
theorem minValueMet_of_amounts (l : List PastPerf) (amts : List Nat)
    (h : ppAmounts l = .ok amts) :
    minValueMet l = .ok (amts.any (fun a => decide (25000 ≤ a))) := by
  induction l generalizing amts with
  | nil =>
    unfold ppAmounts at h
    cases h
    rfl
  | cons pp rest ih =>
    unfold ppAmounts at h
    cases ha : ppValueAmount pp with
    | error e => rw [ha] at h; simp at h
    | ok a =>
      rw [ha] at h
      cases has : ppAmounts rest with
      | error e => rw [has] at h; simp at h
      | ok as =>
        rw [has] at h
        simp only [Except.ok.injEq] at h
        subst h
        unfold minValueMet
        rw [ha]
        by_cases h25 : 25000 ≤ a
        · simp [h25]
        · simp [h25, ih as has]

/-- Each finding builder appends a problem exactly when its item is not ok. -/
theorem ueiFinding_empty_iff (d : ParsedData) :
    (ueiFinding d).1.isEmpty = (ueiFinding d).2.ok := by
  unfold ueiFinding
  cases h : truthy d.uei <;> simp [h]

/-- DUNS analogue of `ueiFinding_empty_iff`. -/
theorem dunsFinding_empty_iff (d : ParsedData) :
    (dunsFinding d).1.isEmpty = (dunsFinding d).2.ok := by
  unfold dunsFinding
  cases h : truthy d.duns <;> simp [h]

/-- SAM analogue of `ueiFinding_empty_iff`. -/
theorem samFinding_empty_iff (d : ParsedData) :
    (samFinding d).1.isEmpty = (samFinding d).2.ok := by
  unfold samFinding
  cases h : (truthy d.sam_status && inStr (str "active") (lowerStr (d.sam_status.getD []))) <;>
    simp [h]

/-- Pricing analogue of `ueiFinding_empty_iff`. -/
theorem pricingFinding_empty_iff (d : ParsedData) :
    (pricingFinding d).1.isEmpty = (pricingFinding d).2.ok := by
  unfold pricingFinding
  cases h1 : d.pricing_data.isEmpty <;>
    cases h2 : pricingComplete d.pricing_data <;> simp [h1, h2]

/-- Past-performance analogue of `ueiFinding_empty_iff`, for successful
evaluations. -/
theorem ppFinding_empty_iff (d : ParsedData) (pi4 : List Str × ChecklistItem)
    (h : ppFinding d = .ok pi4) : pi4.1.isEmpty = pi4.2.ok := by
  unfold ppFinding at h
  cases h1 : d.past_performance.isEmpty
  · rw [h1] at h
    simp only [Bool.false_eq_true, reduceIte] at h
    cases hm : minValueMet d.past_performance with
    | error e => rw [hm] at h; simp at h
    | ok met =>
      rw [hm] at h
      cases met <;> simp only [Bool.not_true, Bool.not_false, Bool.false_eq_true,
        reduceIte, Except.ok.injEq] at h <;> subst h <;> rfl
  · rw [h1] at h
    simp only [reduceIte, Except.ok.injEq] at h
    subst h
    rfl

/-- C3: "For every FactSet with a non-empty past_performance list, whatever
string each entry's value field holds (including strings with no digit at
all), the checklist evaluator never raises an error ... an entry whose value
contains no parseable digits contributes amount 0."  Refuted by the code: on
the value `"no digits, just text"` the first digits/commas run is the bare
comma, stripping commas leaves the empty string, and `int('')` raises
`ValueError`; the evaluation errors instead of contributing amount 0. -/
theorem c3_comma_value_raises :
    mockGenerateChecklist
      ⟨none, none, [], none, none,
        [⟨none, none, some (str "no digits, just text"), none, none⟩], [], []⟩ [] =
      .error () := rfl

/-- C8: for every fact set, the citations argument has no influence at all on
the produced checklist (the Python function receives `relevant_rules` and
never reads it), hence in particular the findings, their `ok` values, problem
tags and `overall_status` coincide for any two citation lists. -/
theorem c8_citations_influence_nothing (d : ParsedData) (c1 c2 : List Citation) :
    mockGenerateChecklist d c1 = mockGenerateChecklist d c2 := rfl

/-- C5: the SAM-status finding (third item of every successfully produced
checklist) has `ok = true` iff `sam_status` is set and the literal substring
"active" occurs in its lower-cased value; and a fact set with
`sam_status = "registered"` yields `ok = false` with problem tag
`sam_not_active`. -/
theorem c5_sam_active_literal :
    (∀ (d : ParsedData) (cits : List Citation) (c : Checklist),
        mockGenerateChecklist d cits = .ok c →
          c.items[2]? = some (samFinding d).2 ∧
          ((samFinding d).2.ok = true ↔
            ∃ s, d.sam_status = some s ∧ inStr (str "active") (lowerStr s) = true)) ∧
      ∀ d : ParsedData, d.sam_status = some (str "registered") →
        (samFinding d).2.ok = false ∧
          (samFinding d).2.problem = some (str "sam_not_active") := by
  constructor
  · intro d cits c h
    obtain ⟨pi4, hpp, rfl⟩ := checklist_ok_inversion d cits c h
    refine ⟨rfl, ?_⟩
    rw [samFinding_ok]
    exact samCond_iff d.sam_status
  · intro d h
    unfold samFinding
    rw [h]
    exact ⟨rfl, rfl⟩

/-- Closed witness for `c5_sam_active_literal`, at the fact set whose
`sam_status` is `"registered"`. -/
theorem c5_sam_active_literal_witness :
    ((⟨[⟨true, false, some (str "missing_uei"), str "UEI not found in documents", [str "R1"]⟩,
        ⟨true, false, some (str "missing_duns"), str "DUNS not found in documents", [str "R1"]⟩,
        ⟨true, false, some (str "sam_not_active"), str "SAM.gov registration not active", [str "R1"]⟩,
        ⟨true, false, some (str "missing_past_performance"), str "No past performance records found", [str "R3"]⟩,
        ⟨true, false, some (str "pricing_incomplete"), str "No pricing data found", [str "R4"]⟩],
       str "fail"⟩ : Checklist).items[2]? =
        some (samFinding ⟨none, none, [], some (str "registered"), none, [], [], []⟩).2 ∧
      ((samFinding ⟨none, none, [], some (str "registered"), none, [], [], []⟩).2.ok = true ↔
        ∃ s, (some (str "registered") : Option Str) = some s ∧
          inStr (str "active") (lowerStr s) = true)) ∧
      ((samFinding ⟨none, none, [], some (str "registered"), none, [], [], []⟩).2.ok = false ∧
        (samFinding ⟨none, none, [], some (str "registered"), none, [], [], []⟩).2.problem =
          some (str "sam_not_active")) := by
  exact ⟨c5_sam_active_literal.1 _ [] _ rfl, c5_sam_active_literal.2 _ rfl⟩

/-- C6: for a fact set whose past-performance list is non-empty and all of
whose entries parse (to the list `amts` of amounts), evaluation succeeds and
the past-performance finding (fourth item) has `ok = true` iff some parsed
amount is ≥ 25000 (closed lower bound). -/
theorem c6_pp_threshold (d : ParsedData) (cits : List Citation) (amts : List Nat)
    (hne : d.past_performance.isEmpty = false)
    (hp : ppAmounts d.past_performance = .ok amts) :
    ∃ c, mockGenerateChecklist d cits = .ok c ∧
      ∃ item, c.items[3]? = some item ∧ (item.ok = true ↔ ∃ a ∈ amts, 25000 ≤ a) := by
  have hmet := minValueMet_of_amounts d.past_performance amts hp
  cases hb : amts.any (fun a => decide (25000 ≤ a)) with
  | true =>
    have hppf : ppFinding d = .ok
        ([], ⟨true, true, none, str "Past performance ≥ $25,000 found", [str "R3"]⟩) := by
      unfold ppFinding
      rw [hne, hmet, hb]
      rfl
    have hchk : mockGenerateChecklist d cits = .ok
        ⟨[(ueiFinding d).2, (dunsFinding d).2, (samFinding d).2,
           ⟨true, true, none, str "Past performance ≥ $25,000 found", [str "R3"]⟩,
           (pricingFinding d).2],
         if ((ueiFinding d).1 ++ (dunsFinding d).1 ++ (samFinding d).1 ++
              ([] : List Str) ++ (pricingFinding d).1).isEmpty then str "pass"
         else str "fail"⟩ := by
      unfold mockGenerateChecklist
      rw [hppf]
    refine ⟨_, hchk, ⟨_, rfl, ?_⟩⟩
    constructor
    · intro _
      have hb' := hb
      simp only [List.any_eq_true, decide_eq_true_eq] at hb'
      exact hb'
    · intro _; rfl
  | false =>
    have hppf : ppFinding d = .ok
        ([str "past_performance_min_value_not_met"],
          ⟨true, false, some (str "past_performance_min_value_not_met"),
            str "No past performance ≥ $25,000 found", [str "R3"]⟩) := by
      unfold ppFinding
      rw [hne, hmet, hb]
      rfl
    have hchk : mockGenerateChecklist d cits = .ok
        ⟨[(ueiFinding d).2, (dunsFinding d).2, (samFinding d).2,
           ⟨true, false, some (str "past_performance_min_value_not_met"),
             str "No past performance ≥ $25,000 found", [str "R3"]⟩,
           (pricingFinding d).2],
         if ((ueiFinding d).1 ++ (dunsFinding d).1 ++ (samFinding d).1 ++
              [str "past_performance_min_value_not_met"] ++
              (pricingFinding d).1).isEmpty then str "pass"
         else str "fail"⟩ := by
      unfold mockGenerateChecklist
      rw [hppf]
    refine ⟨_, hchk, ⟨_, rfl, ?_⟩⟩
    constructor
    · intro hfalse; exact absurd hfalse (by simp)
    · intro hex
      exfalso
      have hb' : amts.any (fun a => decide (25000 ≤ a)) = true := by
        simp only [List.any_eq_true, decide_eq_true_eq]
        exact hex
      rw [hb] at hb'
      exact absurd hb' (by simp)

/-- Closed witness for `c6_pp_threshold`: an entry of exactly $25,000 makes
the predicate pass, and one of $24,999 alone does not. -/
theorem c6_pp_threshold_witness :
    ((∃ c, mockGenerateChecklist
          ⟨none, none, [], none, none,
            [⟨none, none, some (str "$25,000"), none, none⟩], [], []⟩ [] = .ok c ∧
        ∃ item, c.items[3]? = some item ∧
          (item.ok = true ↔ ∃ a ∈ [25000], 25000 ≤ a)) ∧
      ∃ c, mockGenerateChecklist
          ⟨none, none, [], none, none,
            [⟨none, none, some (str "$24,999"), none, none⟩], [], []⟩ [] = .ok c ∧
        ∃ item, c.items[3]? = some item ∧
          (item.ok = true ↔ ∃ a ∈ [24999], 25000 ≤ a)) := by
  exact ⟨c6_pp_threshold _ [] [25000] rfl rfl, c6_pp_threshold _ [] [24999] rfl rfl⟩

/-- `isEmpty` distributes over append. -/
theorem isEmptyAppend {α : Type} (a b : List α) :
    (a ++ b).isEmpty = (a.isEmpty && b.isEmpty) := by
  cases a <;> simp [List.isEmpty]

/-- Bridging lemma: the problems list is empty iff every produced item is ok. -/
theorem problems_empty_iff_all_ok (d : ParsedData) (pi4 : List Str × ChecklistItem)
    (h : ppFinding d = .ok pi4) :
    ((ueiFinding d).1 ++ (dunsFinding d).1 ++ (samFinding d).1 ++ pi4.1 ++
        (pricingFinding d).1).isEmpty =
      ([(ueiFinding d).2, (dunsFinding d).2, (samFinding d).2, pi4.2,
          (pricingFinding d).2].all (fun i => i.ok)) := by
  simp only [isEmptyAppend, List.all_cons, List.all_nil,
    ueiFinding_empty_iff, dunsFinding_empty_iff, samFinding_empty_iff,
    pricingFinding_empty_iff, ppFinding_empty_iff d pi4 h, Bool.and_true,
    Bool.and_assoc]

/-- C9: every successfully produced checklist has exactly five findings, and
its `overall_status` is `"fail"` iff some finding has `ok = false` and
`"pass"` iff all five findings have `ok = true` — a pure function of the
finding sequence. -/
theorem c9_overall_status (d : ParsedData) (cits : List Citation) (c : Checklist)
    (h : mockGenerateChecklist d cits = .ok c) :
    c.items.length = 5 ∧
      (c.overall_status = str "fail" ↔ ∃ i ∈ c.items, i.ok = false) ∧
      (c.overall_status = str "pass" ↔ ∀ i ∈ c.items, i.ok = true) := by
  obtain ⟨pi4, hpp, rfl⟩ := checklist_ok_inversion d cits c h
  have hcond := problems_empty_iff_all_ok d pi4 hpp
  refine ⟨rfl, ?_, ?_⟩
  · show (if _ then _ else _) = str "fail" ↔ _
    rw [hcond]
    cases hall : ([(ueiFinding d).2, (dunsFinding d).2, (samFinding d).2, pi4.2,
        (pricingFinding d).2].all (fun i => i.ok))
    · simp only [Bool.false_eq_true, reduceIte]
      constructor
      · intro _
        by_contra hno
        push_neg at hno
        have hforall : ∀ i ∈ [(ueiFinding d).2, (dunsFinding d).2, (samFinding d).2,
            pi4.2, (pricingFinding d).2], i.ok = true := by
          intro i hi
          cases hok : i.ok
          · exact absurd hok (hno i hi)
          · rfl
        rw [List.all_eq_true.mpr hforall] at hall
        exact absurd hall (by simp)
      · intro _; trivial
    · simp only [reduceIte]
      constructor
      · intro hpf
        exfalso
        revert hpf
        decide
      · rintro ⟨i, hi, hfalse⟩
        rw [List.all_eq_true.mp hall i hi] at hfalse
        exact absurd hfalse (by simp)
  · show (if _ then _ else _) = str "pass" ↔ _
    rw [hcond]
    cases hall : ([(ueiFinding d).2, (dunsFinding d).2, (samFinding d).2, pi4.2,
        (pricingFinding d).2].all (fun i => i.ok))
    · simp only [Bool.false_eq_true, reduceIte]
      constructor
      · intro hpf
        exfalso
        revert hpf
        decide
      · intro hforall
        rw [List.all_eq_true.mpr hforall] at hall
        exact absurd hall (by simp)
    · simp only [reduceIte]
      exact ⟨fun _ => List.all_eq_true.mp hall, fun _ => by trivial⟩

/-- Closed witness for `c9_overall_status`, at the all-empty fact set. -/
theorem c9_overall_status_witness :
    mockGenerateChecklist ⟨none, none, [], none, none, [], [], []⟩ [] =
      .ok ⟨[⟨true, false, some (str "missing_uei"), str "UEI not found in documents", [str "R1"]⟩,
            ⟨true, false, some (str "missing_duns"), str "DUNS not found in documents", [str "R1"]⟩,
            ⟨true, false, some (str "sam_not_active"), str "SAM.gov registration not active", [str "R1"]⟩,
            ⟨true, false, some (str "missing_past_performance"), str "No past performance records found", [str "R3"]⟩,
            ⟨true, false, some (str "pricing_incomplete"), str "No pricing data found", [str "R4"]⟩],
           str "fail"⟩ ∧
      ((⟨[⟨true, false, some (str "missing_uei"), str "UEI not found in documents", [str "R1"]⟩,
          ⟨true, false, some (str "missing_duns"), str "DUNS not found in documents", [str "R1"]⟩,
          ⟨true, false, some (str "sam_not_active"), str "SAM.gov registration not active", [str "R1"]⟩,
          ⟨true, false, some (str "missing_past_performance"), str "No past performance records found", [str "R3"]⟩,
          ⟨true, false, some (str "pricing_incomplete"), str "No pricing data found", [str "R4"]⟩],
         str "fail"⟩ : Checklist).items.length = 5 ∧
        ((⟨[⟨true, false, some (str "missing_uei"), str "UEI not found in documents", [str "R1"]⟩,
            ⟨true, false, some (str "missing_duns"), str "DUNS not found in documents", [str "R1"]⟩,
            ⟨true, false, some (str "sam_not_active"), str "SAM.gov registration not active", [str "R1"]⟩,
            ⟨true, false, some (str "missing_past_performance"), str "No past performance records found", [str "R3"]⟩,
            ⟨true, false, some (str "pricing_incomplete"), str "No pricing data found", [str "R4"]⟩],
           str "fail"⟩ : Checklist).overall_status = str "fail" ↔
          ∃ i ∈ (⟨[⟨true, false, some (str "missing_uei"), str "UEI not found in documents", [str "R1"]⟩,
            ⟨true, false, some (str "missing_duns"), str "DUNS not found in documents", [str "R1"]⟩,
            ⟨true, false, some (str "sam_not_active"), str "SAM.gov registration not active", [str "R1"]⟩,
            ⟨true, false, some (str "missing_past_performance"), str "No past performance records found", [str "R3"]⟩,
            ⟨true, false, some (str "pricing_incomplete"), str "No pricing data found", [str "R4"]⟩],
           str "fail"⟩ : Checklist).items, i.ok = false)) := by
  refine ⟨rfl, ?_, ?_⟩
  · exact (c9_overall_status ⟨none, none, [], none, none, [], [], []⟩ [] _ rfl).1
  · exact (c9_overall_status ⟨none, none, [], none, none, [], [], []⟩ [] _ rfl).2.1

set_option maxRecDepth 8000

/-- C1: "the rule retriever scores each of the rules ... by cosine similarity
between the index's rule vectors and the query vector obtained by projecting
the fact-derived query string into the same vector space as the index ... and
the returned citation list contains exactly those rules whose similarity
exceeds 0.3 ...".  The code never projects into the index's space: it fits a
fresh `TfidfVectorizer` on the query text alone.  For every fact set the call
therefore raises — `ValueError: empty vocabulary` when no gating category is
present, and a cosine-similarity dimension mismatch (query dimension at most
29 against index dimension 100) otherwise — and no citation list is ever
returned. -/
theorem c1_retrieval_always_errors (d : ParsedData) : (getRelevantRules d).isOk = false := by
  have hidx : indexMatrix = ⟨5, 100⟩ := by decide
  unfold getRelevantRules queryText
  rw [hidx]
  cases h1 : truthy d.uei <;> cases h2 : d.naics_codes.isEmpty <;>
      cases h3 : d.past_performance.isEmpty <;> cases h4 : d.pricing_data.isEmpty <;>
    decide

/-- C2: "For every FactSet in which none of the gating fact categories is
present ... retrieval returns an empty citation list normally; it does not
raise an error."  Refuted by the code: the empty query string makes
`TfidfVectorizer.fit_transform` raise `ValueError` (empty vocabulary), so
retrieval raises instead of returning `[]`. -/
theorem c2_empty_query_raises (d : ParsedData)
    (h1 : truthy d.uei = false) (h2 : d.naics_codes = [])
    (h3 : d.past_performance = []) (h4 : d.pricing_data = []) :
    getRelevantRules d = .error .emptyVocabulary := by
  unfold getRelevantRules queryText
  rw [h1, h2, h3, h4]
  rfl

/-- Closed witness for `c2_empty_query_raises`: the all-empty fact set. -/
theorem c2_empty_query_raises_witness :
    getRelevantRules ⟨none, none, [], none, none, [], [], []⟩ = .error .emptyVocabulary :=
  c2_empty_query_raises _ rfl rfl rfl rfl

/-- C10: the NAICS-to-SIN lookup maps the four codes of rule R2's table and
returns every other string unchanged; it is total (never raises). -/
theorem c10_naics_mapping :
    getNaicsMapping (str "541511") = str "54151S" ∧
      getNaicsMapping (str "541512") = str "54151S" ∧
      getNaicsMapping (str "541611") = str "541611" ∧
      getNaicsMapping (str "518210") = str "518210C" ∧
      ∀ code : Str, code ≠ str "541511" → code ≠ str "541512" →
        code ≠ str "541611" → code ≠ str "518210" → getNaicsMapping code = code := by
  refine ⟨rfl, rfl, rfl, rfl, ?_⟩
  intro code h1 h2 h3 h4
  unfold getNaicsMapping rulesNaicsMappings
  have e1 : (code == str "541511") = false := beq_eq_false_iff_ne.mpr h1
  have e2 : (code == str "541512") = false := beq_eq_false_iff_ne.mpr h2
  have e3 : (code == str "541611") = false := beq_eq_false_iff_ne.mpr h3
  have e4 : (code == str "518210") = false := beq_eq_false_iff_ne.mpr h4
  simp [List.lookup, e1, e2, e3, e4]

/-- Closed witness for `c10_naics_mapping`, at the unmapped code `999999`. -/
theorem c10_naics_mapping_witness :
    getNaicsMapping (str "999999") = str "999999" :=
  c10_naics_mapping.2.2.2.2 (str "999999") (by decide) (by decide) (by decide) (by decide)

/-- The UEI update never touches the contact. -/
theorem updateUei_contact (t : Str) (d : ParsedData) :
    (updateUei t d).primary_contact = d.primary_contact := by
  unfold updateUei
  cases reSearch (labelCountAt (str "UEI:") (fun c => c.isAlphanum) 12) t <;> rfl

/-- The DUNS update never touches the contact. -/
theorem updateDuns_contact (t : Str) (d : ParsedData) :
    (updateDuns t d).primary_contact = d.primary_contact := by
  unfold updateDuns
  cases reSearch (labelCountAt (str "DUNS:") Char.isDigit 9) t <;> rfl

/-- The NAICS update never touches the contact. -/
theorem updateNaics_contact (t : Str) (d : ParsedData) :
    (updateNaics t d).primary_contact = d.primary_contact := by
  unfold updateNaics
  cases reSearch (labelRunAt (str "NAICS:")
    (fun c => c.isDigit || c == ',' || isSpacePy c)) t <;> rfl

/-- The SAM update never touches the contact. -/
theorem updateSam_contact (t : Str) (d : ParsedData) :
    (updateSam t d).primary_contact = d.primary_contact := by
  unfold updateSam
  cases reSearch (labelRunAt (str "SAM.gov:")
    (fun c => c.isAlpha || isSpacePy c)) t <;> rfl

/-- The contact after a profile extraction: first e-mail and first phone of
the document when both exist, otherwise the previous value. -/
theorem extractProfile_contact (t : Str) (d : ParsedData) :
    (extractProfileFields t d).primary_contact =
      (match reFindall emailM t, reFindall procPhoneM t with
        | e :: _, p :: _ => some ⟨e, p⟩
        | _, _ => d.primary_contact) := by
  unfold extractProfileFields updateContact
  cases reFindall emailM t <;> cases reFindall procPhoneM t <;>
    simp [updateSam_contact, updateNaics_contact, updateDuns_contact, updateUei_contact]

/-- Past-performance blocks never touch the contact. -/
theorem ppBlockStep_contact (d : ParsedData) (sec : Str) :
    (ppBlockStep d sec).primary_contact = d.primary_contact := by
  unfold ppBlockStep
  split
  · split <;> rfl
  · rfl

/-- Past-performance extraction never touches the contact. -/
theorem extractPP_contact (t : Str) (d : ParsedData) :
    (extractPastPerformanceFields t d).primary_contact = d.primary_contact := by
  unfold extractPastPerformanceFields
  generalize splitOnSub (str "\n\n") t = secs
  induction secs generalizing d with
  | nil => rfl
  | cons s rest ih =>
    rw [List.foldl_cons, ih, ppBlockStep_contact]

/-- Pricing rows never touch the contact. -/
theorem pricingLineStep_contact (d : ParsedData) (line : Str) :
    (pricingLineStep d line).primary_contact = d.primary_contact := by
  unfold pricingLineStep
  split
  · split <;> rfl
  · rfl

/-- Pricing extraction never touches the contact. -/
theorem extractPricing_contact (t : Str) (d : ParsedData) :
    (extractPricingFields t d).primary_contact = d.primary_contact := by
  unfold extractPricingFields
  generalize splitOnChar '\n' t = lines
  induction lines generalizing d with
  | nil => rfl
  | cons l rest ih =>
    rw [List.foldl_cons, ih, pricingLineStep_contact]

/-- Effect of processing one document on the contact. -/
theorem processOne_contact (s : ParsedData) (doc : Document) :
    (processOneDocument s doc).primary_contact =
      (match docContact doc with
        | some c => some c
        | none => s.primary_contact) := by
  simp only [processOneDocument, docContact]
  by_cases hp : classifyDocument doc.text doc.type_hint = str "profile"
  · rw [if_pos hp, if_pos hp, extractProfile_contact]
    cases reFindall emailM doc.text <;> cases reFindall procPhoneM doc.text <;> rfl
  · rw [if_neg hp, if_neg hp]
    by_cases h2 : classifyDocument doc.text doc.type_hint = str "past_performance"
    · rw [if_pos h2]
      exact extractPP_contact _ _
    · rw [if_neg h2]
      by_cases h3 : classifyDocument doc.text doc.type_hint = str "pricing"
      · rw [if_pos h3]
        exact extractPricing_contact _ _
      · rw [if_neg h3]

/-- The contact fold is last-write-wins with respect to its accumulator. -/
theorem foldlLastWins (rest : List Document) :
    ∀ a : Option Contact,
      rest.foldl contactStep a =
        (match rest.foldl contactStep none with
          | some c => some c
          | none => a) := by
  induction rest with
  | nil => intro a; rfl
  | cons doc tail ih =>
    intro a
    simp only [List.foldl_cons]
    rw [ih (contactStep a doc), ih (contactStep none doc)]
    cases tail.foldl contactStep none
    · unfold contactStep
      cases docContact doc <;> rfl
    · rfl

/-- Unfolding the contact fold by one document. -/
theorem lastContact_cons (doc : Document) (rest : List Document) :
    lastContact (doc :: rest) =
      (match lastContact rest with
        | some c => some c
        | none => docContact doc) := by
  unfold lastContact
  simp only [List.foldl_cons]
  rw [foldlLastWins rest (contactStep none doc)]
  unfold contactStep
  cases rest.foldl contactStep none <;> cases docContact doc <;> rfl

/-- The extracted contact of a whole submission, over any starting state. -/
theorem processDocuments_contact (docs : List Document) :
    ∀ s : ParsedData,
      (docs.foldl processOneDocument s).primary_contact =
        (match lastContact docs with
          | some c => some c
          | none => s.primary_contact) := by
  induction docs with
  | nil => intro s; rfl
  | cons doc rest ih =>
    intro s
    simp only [List.foldl_cons]
    rw [ih (processOneDocument s doc), processOne_contact, lastContact_cons]
    cases lastContact rest <;> cases docContact doc <;> rfl

/-- C4: "For every sequence of documents in which two or more documents each
contain both an email-shaped token and a phone-shaped token, the extracted
FactSet's primary_contact holds the email and phone from the first (earliest
in document order) such document — first match wins, not last."  Refuted at
a concrete two-document input: both documents classify as `profile` and
contain an e-mail and a phone, yet the extracted contact is the second
document's pair, not the first's: `_extract_profile_fields` overwrites
`primary_contact` unconditionally, so the last such document wins. -/
theorem c4_counterexample :
    classifyDocument (str "UEI: ABC123DEF456 a@x.com 415-555-0100") none = str "profile" ∧
      classifyDocument (str "POC: b@y.com 415-555-0199") none = str "profile" ∧
      (reFindall emailM (str "UEI: ABC123DEF456 a@x.com 415-555-0100"))[0]? =
        some (str "a@x.com") ∧
      (reFindall procPhoneM (str "UEI: ABC123DEF456 a@x.com 415-555-0100"))[0]? =
        some (str "415-555-0100") ∧
      (reFindall emailM (str "POC: b@y.com 415-555-0199"))[0]? = some (str "b@y.com") ∧
      (reFindall procPhoneM (str "POC: b@y.com 415-555-0199"))[0]? =
        some (str "415-555-0199") ∧
      (processDocuments
          [⟨str "doc1.txt", none, str "UEI: ABC123DEF456 a@x.com 415-555-0100"⟩,
            ⟨str "doc2.txt", none, str "POC: b@y.com 415-555-0199"⟩]).primary_contact =
        some ⟨str "b@y.com", str "415-555-0199"⟩ ∧
      (some (⟨str "b@y.com", str "415-555-0199"⟩ : Contact) ≠
        some (⟨str "a@x.com", str "415-555-0100"⟩ : Contact)) := by
  decide

/-- C4 (amended): the extracted `primary_contact` holds the first
e-mail-shaped and first phone-shaped token of the LAST profile-classified
document containing both — across documents the last match wins, while
inside a single document the first e-mail and first phone win. -/
theorem c4_last_match_wins (docs : List Document) :
    (processDocuments docs).primary_contact = lastContact docs := by
  unfold processDocuments
  rw [processDocuments_contact docs emptyParsed]
  cases lastContact docs <;> rfl

/-- C7: "The redaction function is idempotent: for every input string x,
redact(redact(x)) equals redact(x)."  Refuted at a concrete input: redacting
`a@b.co415-555-0100` replaces only the phone, and the `[PHONE_REDACTED]`
token then completes a word boundary that makes `a@b.co` an e-mail match on
the second pass. -/
theorem c7_redact_not_idempotent :
    redact (redact (str "a@b.co415-555-0100")) ≠ redact (str "a@b.co415-555-0100") := by
  decide

end GetGSA
